import Mathlib

/-!
# Verification of the gwip imputation-pipeline core

A shallow embedding of the resumable task-state store (`gwip/db/utils.py`)
and the segment/chromosome reconciliation and aggregation helpers
(`gwip/pipeline.py`) of the gwip genome-wide imputation pipeline, together
with proofs of the behavioural properties stated in the design document.

The Python implementation modules are not part of the provided sources;
only their unit tests (`gwip/tests/test_db.py`,
`gwip/tests/test_main_pipeline.py`) are.  Every definition below is
therefore modelled from the design document, and wherever the unit tests
assert behaviour that differs from the document's words, the tests'
asserted behaviour is followed (the tests exercise the real
implementation, so they are the stronger evidence).  Each definition's
doc comment records its provenance.

Timestamps are modelled as integers (whole seconds), decimal minor-allele
frequencies as integers scaled by `10 ^ 9` (every value appearing in the
repository's data files is an exact decimal), and the SQLite ledger as an
ordered list of rows.
-/

namespace Gwip

/-! ## Generic helpers: a stable sort by a boolean order -/

/-- Insert `x` into `l` in front of the first element `y` with `le x y`.
Used to model Python's stable `sorted`. -/
def insertSorted (le : α → α → Bool) (x : α) : List α → List α
  | [] => [x]
  | y :: ys => if le x y then x :: y :: ys else y :: insertSorted le x ys

/-- Stable insertion sort by the boolean order `le`; models Python's
`sorted` / `list.sort(key=...)` at the total preorders used in this file. -/
def sortBy (le : α → α → Bool) : List α → List α
  | [] => []
  | x :: xs => insertSorted le x (sortBy le xs)

/-! ## The task-completion ledger (`gwip/db/utils.py`)

The ledger is one SQLite table `gwip_task` with columns
`name (TEXT, primary key)`, `launch (TIMESTAMP)`, `start (TIMESTAMP)`,
`end (TIMESTAMP, nullable)`, `completed (INT, nullable)`.  It is modelled
as an ordered list of rows (`SELECT` returns rows in insertion order, and
the unit tests rely on that order).  A stored `completed` cell may hold an
integer, `NULL`, or — after outside interference, as exercised by
`test_check_task_completion` — arbitrary text, so it is modelled as a
dedicated SQL-value type rather than `Option Int`. -/

/-- A value stored in the nullable `completed` column. -/
inductive SqlVal where
  | null : SqlVal
  | int (n : Int) : SqlVal
  | text (s : String) : SqlVal
deriving DecidableEq, Repr

/-- One row of the `gwip_task` table.  Timestamps are whole seconds. -/
structure TaskRow where
  name : String
  launch : Int
  start : Int
  endTime : Option Int
  completed : SqlVal
deriving DecidableEq, Repr

/-- The ledger: the rows of `gwip_task` in insertion order. -/
abbrev TaskDB := List TaskRow

/-- `SELECT * FROM gwip_task WHERE name = ?` (the name is the primary key,
so the first hit is the row). -/
def findTask (db : TaskDB) (name : String) : Option TaskRow :=
  db.find? (fun r => r.name == name)

/-- Modelled from the spec: `registerTask(name, handle)` of
`gwip/db/utils.py` (absent from the sources; only its tests are present).
Inserts a new row with `launch = start = now` and `end`/`completed` NULL;
if the name is already present, overwrites that row in place with fresh
`launch`/`start`, NULL `end` and `completed = 0`.  The design document
says a relaunch *clears* `completed`, but `test_create_task_entry`
(test_db.py:195) asserts the relaunched row has `completed = 0`, so the
test's behaviour is modelled. -/
def create_task_entry (name : String) (now : Int) (db : TaskDB) : TaskDB :=
  if db.any (fun r => r.name == name) then
    db.map (fun r => if r.name == name then
      ⟨name, now, now, none, SqlVal.int 0⟩ else r)
  else
    db ++ [⟨name, now, now, none, SqlVal.null⟩]

/-- Modelled from the spec: `markCompleted(name, handle)` of
`gwip/db/utils.py` (absent from the sources).  Sets `end = now` and
`completed = 1` on the named row. -/
def mark_task_completed (name : String) (now : Int) (db : TaskDB) : TaskDB :=
  db.map (fun r => if r.name == name then
    { r with endTime := some now, completed := SqlVal.int 1 } else r)

/-- Modelled from the spec: `markIncomplete(name, handle)` of
`gwip/db/utils.py` (absent from the sources).  Sets `completed = 0` on the
named row.  The design document additionally says it sets `end = null`,
but `test_mark_task_incomplete` (test_db.py:313-317) asserts that a
previously recorded `end` is still present (and equal to the completion
time) after the call, so the column is left untouched here. -/
def mark_task_incomplete (name : String) (db : TaskDB) : TaskDB :=
  db.map (fun r => if r.name == name then
    { r with completed := SqlVal.int 0 } else r)

/-- Modelled from the spec: `markRemoteCompleted` /
`mark_drmaa_task_completed(name, launch, start, end, handle)` of
`gwip/db/utils.py` (absent from the sources).  Overwrites `launch`,
`start`, `end` with the scheduler-reported times and sets
`completed = 1`. -/
def mark_drmaa_task_completed (name : String) (launch start endT : Int)
    (db : TaskDB) : TaskDB :=
  db.map (fun r => if r.name == name then
    ⟨r.name, launch, start, some endT, SqlVal.int 1⟩ else r)

/-- The raw `UPDATE gwip_task SET completed=? WHERE name=?` issued by
`test_check_task_completion` to corrupt a row from outside the store's
interface. -/
def set_completed_raw (name : String) (v : SqlVal) (db : TaskDB) : TaskDB :=
  db.map (fun r => if r.name == name then { r with completed := v } else r)

/-- Modelled from the spec: `isCompleted` / `check_task_completion` of
`gwip/db/utils.py` (absent from the sources).  True iff the stored
`completed` value is the integer 1; a missing row, NULL, 0 or corrupted
text all yield `false` (the SQL comparison `completed = 1` is false for
every non-1 value and never raises). -/
def check_task_completion (name : String) (db : TaskDB) : Bool :=
  match findTask db name with
  | some r => r.completed == SqlVal.int 1
  | none => false

/-- Modelled from the spec: `runtimeSeconds` / `get_task_runtime` of
`gwip/db/utils.py` (absent from the sources).  `end - start` in whole
seconds; undefined (`none`) when the task is unknown or has no `end`. -/
def get_task_runtime (name : String) (db : TaskDB) : Option Int :=
  (findTask db name).bind (fun r => r.endTime.map (fun e => e - r.start))

/-- The rows whose name differs from `name` (the frame of a mutation). -/
def othersOf (name : String) (db : TaskDB) : TaskDB :=
  db.filter (fun r => r.name != name)

/-! ## Chromosome lengths (`gwip/pipeline.py`, `get_chromosome_length`) -/

/-- Lexicographic comparison of character lists by code point — the order
Python's `sorted` uses on strings. -/
def charListLe : List Char → List Char → Bool
  | [], _ => true
  | _ :: _, [] => false
  | a :: as, b :: bs =>
    if a < b then true else if b < a then false else charListLe as bs

/-- Python's string `<=`, used by `sorted` on chromosome labels. -/
def strLeB (a b : String) : Bool := charListLe a.data b.data

/-- The chromosome labels the pipeline iterates over (the package-level
`chromosomes` tuple): the autosomes "1".."22".
`test_get_chromosome_length` accepts a cache file holding exactly these
labels and no "X", and `test_gather_maf_stats` writes exactly two of its
44 markers per chromosome, so the tuple has the 22 autosomes only. -/
def requiredChromosomes : List String :=
  (List.range 22).map (fun i => Nat.repr (i + 1))

/-- The hg19 reference lengths (base pairs) written to
`chromosome_lengths.txt` when no cache file exists yet; autosome values as
asserted by `test_get_chromosome_length`, plus the X chromosome, which the
freshly derived table must contain (test_main_pipeline.py:61-63). -/
def builtinChromosomeLengths : List (String × Int) :=
  [("1", 249250621), ("2", 243199373), ("3", 198022430), ("4", 191154276),
   ("5", 180915260), ("6", 171115067), ("7", 159138663), ("8", 146364022),
   ("9", 141213431), ("10", 135534747), ("11", 135006516), ("12", 133851895),
   ("13", 115169878), ("14", 107349540), ("15", 102531392), ("16", 90354753),
   ("17", 81195210), ("18", 78077248), ("19", 59128983), ("20", 63025520),
   ("21", 48129895), ("22", 51304566), ("X", 155270560)]

/-- The required labels absent from a parsed cache file. -/
def missingChromosomes (file : List (String × Int)) : List String :=
  requiredChromosomes.filter (fun c => !(file.any (fun p => p.1 == c)))

/-- Modelled from the spec: `get_chromosome_length(out_dir)` of
`gwip/pipeline.py` (absent from the sources; only its tests are present).
With no cache file present the builtin table is persisted and returned;
with a cache file, its parsed contents are returned after checking that
every required chromosome is present, otherwise the run aborts with a
`ProgramError` whose message lists the missing labels sorted as strings
and comma-joined (`test_get_chromosome_length`,
test_main_pipeline.py:96-98: "missing chromosomes: 12, 9").  The design
document additionally lists "X" as required on load, but the test accepts
a cache holding only "1".."22", so the required set here is the autosome
tuple. -/
def get_chromosome_length (cache : Option (List (String × Int))) :
    Except String (List (String × Int)) :=
  match cache with
  | none => .ok builtinChromosomeLengths
  | some file =>
    match missingChromosomes file with
    | [] => .ok file
    | m :: ms =>
      .error ("missing chromosomes: "
        ++ String.intercalate ", " (sortBy strLeB (m :: ms)))

/-! ## Chromosome-encoding resolution (`get_chrom_encoding`) -/

/-- The candidate reference labels for pipeline chromosome `n`, in the
priority order the resolver tries them: the bare number, the
`chr`-prefixed number, and for 23/24 additionally the letter forms.  The
tests pin the candidate *sets* (bare, chr-prefixed, and letter forms for
23/24) but never exhibit a reference holding both a numeric and a letter
form of the same chromosome, so the relative numeric-versus-letter order
is the one suggested by the numeric result keys. -/
def encCandidates (n : Nat) : List String :=
  if n = 23 then ["23", "chr23", "X", "chrX"]
  else if n = 24 then ["24", "chr24", "Y", "chrY"]
  else [Nat.repr n, "chr" ++ Nat.repr n]

/-- The chromosome numbers the resolver iterates over: 1..24 and the
mitochondrial 26 (`test_get_chrom_encoding` expects the key "26" in every
result and a warning for 26 — but none for 25 — when absent). -/
def encodingChromosomes : List Nat := ((List.range 24).map (· + 1)) ++ [26]

/-- The first candidate encoding of chromosome `n` present in the
reference index (`none` when the chromosome is absent from it). -/
def encValue (ref : List String) (n : Nat) : Option String :=
  (encCandidates n).find? (fun c => ref.contains c)

/-- The warning logged for a chromosome absent from the reference
(test_main_pipeline.py:252). -/
def encWarning (n : Nat) : String :=
  Nat.repr n ++ ": chromosome not in reference"

/-- Modelled from the spec: `get_chrom_encoding(reference)` of
`gwip/pipeline.py` (absent from the sources).  For each chromosome number
1..24 and 26 it records the first candidate label present in the
reference index under the numeric key, and logs a non-fatal warning for
each chromosome with no candidate present.  Returns the encoding mapping
together with the warnings, in iteration order.  The design document
frames the result as keyed by "1".."22","X","Y"; the test instead expects
numeric keys ("23"→"X", "24"→"Y") plus "26", and warnings for the numbers
19..24 and 26 when those are absent. -/
def get_chrom_encoding (ref : List String) :
    List (String × String) × List String :=
  (encodingChromosomes.filterMap
      (fun n => (encValue ref n).map (fun c => (Nat.repr n, c))),
   encodingChromosomes.filterMap
      (fun n => match encValue ref n with
        | some _ => none
        | none => some (encWarning n)))

/-! ## Strand-flip detection (`is_reversed`) -/

/-- The complement lookup `_complement = A↔T, C↔G` on upper-case bases;
`none` for every other character. -/
def complementBase : Char → Option Char
  | 'A' => some 'T'
  | 'T' => some 'A'
  | 'C' => some 'G'
  | 'G' => some 'C'
  | _ => none

/-- Upper-cases a supplied allele and accepts it only if it is a single
letter of the nucleotide set {A,C,G,T}. -/
def alleleChar (a : String) : Option Char :=
  match a.data.map Char.toUpper with
  | [c] => if (complementBase c).isSome then some c else none
  | _ => none

/-- An indexed reference genome: sequence label → sequence. -/
abbrev RefGenome := List (String × List Char)

/-- Modelled from the spec: `is_reversed(chrom, pos, a1, a2, reference,
encoding)` of `gwip/pipeline.py` (absent from the sources).  Returns
false — never raising — when either allele is not a single
A/C/G/T letter (case-insensitive), when the chromosome is absent from the
encoding map, or when the 1-based position falls outside the resolved
sequence.  Otherwise it reads the reference base at the position and
reports a strand flip.  The design document says the result is true iff
the complement of the reference base equals the *first* allele, but
`test_is_reversed` asserts `is_reversed("2", 2, "t", "g", ...)` is true
(complement "G" equals the second allele) and
`is_reversed("3", 2, "g", "c", ...)` is false (the reference base itself
matches an allele), so the modelled rule is the one consistent with every
test case: true iff the upper-cased reference base matches neither
allele while its complement matches at least one of them. -/
def is_reversed (chrom : String) (pos : Int) (a1 a2 : String)
    (reference : RefGenome) (encoding : List (String × String)) : Bool :=
  match alleleChar a1, alleleChar a2 with
  | some c1, some c2 =>
    (match encoding.lookup chrom with
     | none => false
     | some label =>
       match reference.lookup label with
       | none => false
       | some seq =>
         if pos < 1 then false
         else
           match seq.get? (pos.toNat - 1) with
           | none => false
           | some b =>
             if b.toUpper = c1 ∨ b.toUpper = c2 then false
             else
               match complementBase b.toUpper with
               | some rc => rc = c1 ∨ rc = c2
               | none => false)
  | _, _ => false

/-- The three-sequence reference of `test_is_reversed`
(test_main_pipeline.py:261-268): "1" and "2" hold `ACGT`, "3" holds the
lower-case `acgt`. -/
def refFixture : RefGenome :=
  [("1", ['A', 'C', 'G', 'T']), ("2", ['A', 'C', 'G', 'T']),
   ("3", ['a', 'c', 'g', 't'])]

/-- The chromosome encoding of `test_is_reversed`
(test_main_pipeline.py:284). -/
def encFixture : List (String × String) := [("1", "1"), ("2", "2"), ("3", "3")]

/-! ## Segment-file ordering (`file_sorter`) -/

/-- ASCII decimal-digit test, the `\\d` of the segment-name pattern. -/
def isDigitChar (c : Char) : Bool := '0' ≤ c && c ≤ '9'

/-- Numeric value of a digit run, most significant digit first — Python's
`int` applied to a matched group. -/
def digitsVal (l : List Char) : Nat :=
  l.foldl (fun acc c => acc * 10 + (c.toNat - '0'.toNat)) 0

/-- One attempt to match `chr(\\d+)\\.(\\d+)_(\\d+)` at the head of the
character list: the literal `chr`, then three maximal digit runs separated
by `.` and `_`.  Each `\\d+` group of the pattern is followed by a
non-digit (or the pattern end), so the regex's greedy groups and maximal
munch agree. -/
def parseChrAt (l : List Char) : Option (Nat × Nat × Nat) :=
  match l with
  | 'c' :: 'h' :: 'r' :: rest =>
    let d1 := rest.takeWhile isDigitChar
    if d1.isEmpty then none
    else
      match rest.dropWhile isDigitChar with
      | '.' :: rest2 =>
        let d2 := rest2.takeWhile isDigitChar
        if d2.isEmpty then none
        else
          match rest2.dropWhile isDigitChar with
          | '_' :: rest4 =>
            let d3 := rest4.takeWhile isDigitChar
            if d3.isEmpty then none
            else some (digitsVal d1, digitsVal d2, digitsVal d3)
          | _ => none
      | _ => none
  | _ => none

/-- `re.search`: the leftmost position where the pattern matches wins. -/
def scanForChr : List Char → Option (Nat × Nat × Nat)
  | [] => none
  | c :: cs =>
    match parseChrAt (c :: cs) with
    | some t => some t
    | none => scanForChr cs

/-- Modelled from the spec: `file_sorter(filename)` of `gwip/pipeline.py`
(absent from the sources).  Searches the filename for the segment pattern
`chr(\\d+)\\.(\\d+)_(\\d+)` and returns the integer triple of the three
groups (chromosome, start, end); `none` models the exception Python
raises when `re.search` finds no match. -/
def file_sorter (s : String) : Option (Nat × Nat × Nat) :=
  scanForChr s.data

/-- Python's tuple order on the extracted `(chromosome, start, end)`
triples. -/
def tripleLe (a b : Nat × Nat × Nat) : Bool :=
  decide (a.1 < b.1 ∨ (a.1 = b.1 ∧ (a.2.1 < b.2.1
    ∨ (a.2.1 = b.2.1 ∧ a.2.2 ≤ b.2.2))))

/-- The comparison induced by `key=file_sorter` in
`filenames.sort(key=file_sorter)`. -/
def fileKeyLe (a b : String) : Bool :=
  tripleLe ((file_sorter a).getD (0, 0, 0)) ((file_sorter b).getD (0, 0, 0))

/-- `filenames.sort(key=file_sorter)`: a stable sort by the key. -/
def sortSegmentFiles (l : List String) : List String := sortBy fileKeyLe l

/-- The filenames of `test_file_sorter` (test_main_pipeline.py:40-42). -/
def segmentTestFiles : List String :=
  ["chr1.1000_100000.impute2", "chr2.10000_1002300.impute2",
   "chr1.1_100.impute2", "/some/path/chr1.1_10.impute2",
   "chr1.100000_2000000.impute2.some_extension"]

/-- The genome order `test_file_sorter` expects after sorting. -/
def segmentTestSorted : List String :=
  ["/some/path/chr1.1_10.impute2", "chr1.1_100.impute2",
   "chr1.1000_100000.impute2",
   "chr1.100000_2000000.impute2.some_extension",
   "chr2.10000_1002300.impute2"]

/-! ## MAF statistics aggregation (`gather_maf_stats`)

MAF cells in the per-chromosome files are exact decimal literals parsed by
Python; they are modelled as integers scaled by `10 ^ 9` (every value in
the repository's tests has at most nine decimal places), which keeps all
threshold comparisons exact. -/

/-- A parsed minor-allele-frequency cell: the literal "NA" or a decimal
value in units of `10 ^ -9`. -/
inductive MafVal where
  | na : MafVal
  | num (v : Int) : MafVal
deriving DecidableEq, Repr

/-- 0.5 in `10 ^ -9` units. -/
def mafHalf : Int := 500000000

/-- 0.01 in `10 ^ -9` units. -/
def maf01 : Int := 10000000

/-- 0.05 in `10 ^ -9` units. -/
def maf05 : Int := 50000000

/-- 1.0 in `10 ^ -9` units. -/
def mafOne : Int := 1000000000

/-- Python's `round(maf, 3)` used in the invalid-MAF message, expressed in
thousandths (all values the tests exercise are exact multiples of 0.001,
so the tie-breaking convention is irrelevant; half-up is used). -/
def roundTo3 (v : Int) : Int := (v + 500000).fdiv 1000000

/-- A fatal `ProgramError` of the aggregation step: a missing
per-chromosome file, named by its path, or an out-of-domain MAF value,
named by its marker and the value rounded to three decimals. -/
inductive MafError where
  | missingFile (filename : String)
  | invalidData (marker : String) (thousandths : Int)
deriving DecidableEq, Repr

/-- The counters behind the `nb_*` keys of the statistics map (the `pct_*`
keys are these counts over `nbWithMaf`, and `frequency_pie` is a chart
path; neither adds information about the fold itself). -/
structure MafStats where
  nbWithMaf : Nat
  nbGeq01 : Nat
  nbGeq05 : Nat
  nbLt05 : Nat
  nbLt01 : Nat
  nbGeq01Lt05 : Nat
  nbNan : Nat
deriving DecidableEq, Repr

/-- The all-zero statistics returned when no marker has a usable MAF. -/
def zeroMafStats : MafStats := ⟨0, 0, 0, 0, 0, 0, 0⟩

/-- The chromosome numbers the aggregation iterates over, in order. -/
def chromosomeNumbers : List Nat := (List.range 22).map (· + 1)

/-- The per-chromosome MAF file path
(`{dir}/chr{c}/final_impute2/chr{c}.imputed.maf`). -/
def mafFilename (dir : String) (c : Nat) : String :=
  dir ++ "/chr" ++ Nat.repr c ++ "/final_impute2/chr" ++ Nat.repr c
    ++ ".imputed.maf"

/-- The per-chromosome good-sites file path. -/
def goodSitesFilename (dir : String) (c : Nat) : String :=
  dir ++ "/chr" ++ Nat.repr c ++ "/final_impute2/chr" ++ Nat.repr c
    ++ ".imputed.good_sites"

/-- The upfront existence check: the first chromosome (in order 1..22)
with a missing file, the MAF file checked before the good-sites file
(`test_gather_maf_stats` gets the MAF path in the message when both are
deleted). -/
def firstMissingMafFile (dir : String)
    (mafs : Nat → Option (List (String × MafVal)))
    (goods : Nat → Option (List String)) : Option String :=
  chromosomeNumbers.findSome? (fun c =>
    if (mafs c).isNone then some (mafFilename dir c)
    else if (goods c).isNone then some (goodSitesFilename dir c)
    else none)

/-- The rows of one chromosome's MAF table restricted to its good sites —
only these count toward statistics. -/
def goodMafs (mafFile : List (String × MafVal)) (goodFile : List String) :
    List (String × MafVal) :=
  mafFile.filter (fun p => goodFile.contains p.1)

/-- The first good site, in file order, whose numeric MAF lies outside
[0, 0.5]. -/
def firstInvalidMaf (rows : List (String × MafVal)) : Option (String × Int) :=
  rows.findSome? (fun p =>
    match p.2 with
    | MafVal.na => none
    | MafVal.num v => if v < 0 ∨ mafHalf < v then some (p.1, v) else none)

/-- The numeric MAF values of a row list, in order. -/
def numericMafs (rows : List (String × MafVal)) : List Int :=
  rows.filterMap (fun p =>
    match p.2 with
    | MafVal.na => none
    | MafVal.num v => some v)

/-- The per-chromosome warning for a good site whose MAF is "NA"
(test_main_pipeline.py:494). -/
def nanWarning (c : Nat) : String :=
  "chr" ++ Nat.repr c ++ ": good sites with invalid MAF (NaN)"

/-- The single warning emitted when no marker has any usable MAF
(test_main_pipeline.py:508-509). -/
def noMafWarning : String :=
  "There were no marker with MAF (something went wrong)"

/-- Modelled from the spec: `gather_maf_stats(o_dir)` of
`gwip/pipeline.py` (absent from the sources).  The filesystem is passed
explicitly: `mafs c` / `goods c` are the parsed contents of chromosome
`c`'s MAF and good-sites files, `none` when the file is absent.  After
the upfront existence check, good sites are folded into the band
counters; a numeric MAF outside [0, 0.5] aborts with the invalid-data
error carrying the marker and the value rounded to three decimals (the
design document states the domain as [0, 1], but the test demands the
error for 0.6, a minor-allele frequency being at most one half); an "NA"
MAF on a good site yields the per-chromosome warning and is excluded
from the counts; if no good site has a numeric MAF at all, the single
no-marker warning is emitted with all-zero statistics instead of an
error.  Returns the statistics together with the warnings logged. -/
def gather_maf_stats (dir : String)
    (mafs : Nat → Option (List (String × MafVal)))
    (goods : Nat → Option (List String)) :
    Except MafError (MafStats × List String) :=
  match firstMissingMafFile dir mafs goods with
  | some f => Except.error (MafError.missingFile f)
  | none =>
    let rows := chromosomeNumbers.map
      (fun c => (c, goodMafs ((mafs c).getD []) ((goods c).getD [])))
    match firstInvalidMaf (rows.map Prod.snd).flatten with
    | some (m, v) => Except.error (MafError.invalidData m (roundTo3 v))
    | none =>
      let vals := numericMafs (rows.map Prod.snd).flatten
      let chromWarnings := rows.filterMap
        (fun pc => if pc.2.any (fun p => p.2 == MafVal.na)
          then some (nanWarning pc.1) else none)
      if vals.isEmpty then
        Except.ok (zeroMafStats, chromWarnings ++ [noMafWarning])
      else
        Except.ok (⟨vals.length,
          vals.countP (fun v => maf01 ≤ v),
          vals.countP (fun v => maf05 ≤ v),
          vals.countP (fun v => v < maf05),
          vals.countP (fun v => v < maf01),
          vals.countP (fun v => maf01 ≤ v && v < maf05),
          (rows.map Prod.snd).flatten.countP
            (fun p => p.2 == MafVal.na)⟩,
          chromWarnings)

/-- The 44-marker MAF tables of `test_gather_maf_stats`: chromosome `c`
holds the two markers popped from the end of the shared content list. -/
def testMafTables : Nat → List (String × MafVal)
  | 1 => [("marker_44", MafVal.num 4000000), ("marker_43", MafVal.num 394000000)]
  | 2 => [("marker_42", MafVal.num 54), ("marker_41", MafVal.num 487)]
  | 3 => [("marker_40", MafVal.na), ("marker_39", MafVal.num 150000)]
  | 4 => [("marker_38", MafVal.num 194440000), ("marker_37", MafVal.num 98400000)]
  | 5 => [("marker_36", MafVal.num 78400000), ("marker_35", MafVal.num 80000000)]
  | 6 => [("marker_34", MafVal.num 60000000), ("marker_33", MafVal.num 6000000)]
  | 7 => [("marker_32", MafVal.num 500000000), ("marker_31", MafVal.num 87100000)]
  | 8 => [("marker_30", MafVal.num 48400000), ("marker_29", MafVal.num 48000000)]
  | 9 => [("marker_28", MafVal.num 51000000), ("marker_27", MafVal.num 11000000)]
  | 10 => [("marker_26", MafVal.num 10040000), ("marker_25", MafVal.num 5140000)]
  | 11 => [("marker_24", MafVal.num 34230000), ("marker_23", MafVal.num 432000000)]
  | 12 => [("marker_22", MafVal.num 31600000), ("marker_21", MafVal.num 1000000)]
  | 13 => [("marker_20", MafVal.num 12000000), ("marker_19", MafVal.num 5000000)]
  | 14 => [("marker_18", MafVal.num 12300000), ("marker_17", MafVal.num 56000000)]
  | 15 => [("marker_16", MafVal.num 4000000), ("marker_15", MafVal.num 1000000)]
  | 16 => [("marker_14", MafVal.num 55000000), ("marker_13", MafVal.num 50000000)]
  | 17 => [("marker_12", MafVal.num 4000000), ("marker_11", MafVal.num 5000000)]
  | 18 => [("marker_10", MafVal.num 20000000), ("marker_9", MafVal.num 15000000)]
  | 19 => [("marker_8", MafVal.num 3000000), ("marker_7", MafVal.num 10000000)]
  | 20 => [("marker_6", MafVal.num 40000000), ("marker_5", MafVal.num 94000)]
  | 21 => [("marker_4", MafVal.num 300000000), ("marker_3", MafVal.na)]
  | 22 => [("marker_2", MafVal.num 200000000), ("marker_1", MafVal.num 0)]
  | _ => []

/-- The 40-name good-sites list of `test_gather_maf_stats` (marker_3,
marker_4, marker_40 and marker_42 are not good). -/
def testGoodSites : List String :=
  ["marker_1", "marker_2", "marker_5", "marker_6", "marker_7", "marker_8",
   "marker_9", "marker_10", "marker_11", "marker_12", "marker_13",
   "marker_14", "marker_15", "marker_16", "marker_17", "marker_18",
   "marker_19", "marker_20", "marker_21", "marker_22", "marker_23",
   "marker_24", "marker_25", "marker_26", "marker_27", "marker_28",
   "marker_29", "marker_30", "marker_31", "marker_32", "marker_33",
   "marker_34", "marker_35", "marker_36", "marker_37", "marker_38",
   "marker_39", "marker_41", "marker_43", "marker_44"]

/-- The invalid-entry fixture of `test_gather_maf_stats`: chromosome 1's
MAF file is rewritten to a single marker of the given value; all other
files are present (and, for the claim, empty). -/
def invalidMafFixture (v : Int) : Nat → Option (List (String × MafVal)) :=
  fun c => if c = 1 then some [("marker_1", MafVal.num v)] else some []

/-- The matching good-sites fixture: marker_1 is good on chromosome 1. -/
def invalidGoodFixture : Nat → Option (List String) :=
  fun c => if c = 1 then some ["marker_1"] else some []

/-! ## Theorems

All definitions above are the embedding; everything below proves
properties about them. -/

theorem perm_insertSorted (le : α → α → Bool) (x : α) (l : List α) :
    List.Perm (insertSorted le x l) (x :: l) := by
  induction l with
  | nil => simp [insertSorted]
  | cons y ys ih =>
    simp only [insertSorted]
    split
    · exact List.Perm.refl _
    · exact List.Perm.trans (List.Perm.cons y ih) (List.Perm.swap x y ys)

theorem perm_sortBy (le : α → α → Bool) (l : List α) :
    List.Perm (sortBy le l) l := by
  induction l with
  | nil => simp [sortBy]
  | cons x xs ih =>
    exact List.Perm.trans (perm_insertSorted le x _) (List.Perm.cons x ih)

theorem pairwise_insertSorted (le : α → α → Bool)
    (htot : ∀ a b, le a b = false → le b a = true)
    (htrans : ∀ a b c, le a b = true → le b c = true → le a c = true)
    (x : α) (l : List α) (hl : l.Pairwise (fun a b => le a b = true)) :
    (insertSorted le x l).Pairwise (fun a b => le a b = true) := by
  induction l with
  | nil => simp [insertSorted]
  | cons y ys ih =>
    rcases hl with _ | ⟨hy, hys⟩
    simp only [insertSorted]
    split
    · rename_i hxy
      refine List.Pairwise.cons ?_ (List.Pairwise.cons hy hys)
      intro z hz
      rw [List.mem_cons] at hz
      rcases hz with hz | hz
      · exact hz ▸ hxy
      · exact htrans x y z hxy (hy z hz)
    · rename_i hxy
      refine List.Pairwise.cons ?_ (ih hys)
      intro z hz
      have hmem := (perm_insertSorted le x ys).mem_iff.mp hz
      rw [List.mem_cons] at hmem
      rcases hmem with hmem | hmem
      · exact hmem ▸ htot x y (by simpa using hxy)
      · exact hy z hmem

theorem pairwise_sortBy (le : α → α → Bool)
    (htot : ∀ a b, le a b = false → le b a = true)
    (htrans : ∀ a b c, le a b = true → le b c = true → le a c = true)
    (l : List α) :
    (sortBy le l).Pairwise (fun a b => le a b = true) := by
  induction l with
  | nil => simp [sortBy]
  | cons x xs ih => exact pairwise_insertSorted le htot htrans x _ ih

/-! ### Ledger lemmas -/

theorem findTask_map_if (name : String) (g : TaskRow → TaskRow)
    (hg : ∀ r : TaskRow, (r.name == name) = true → ((g r).name == name) = true)
    (db : TaskDB) :
    findTask (db.map (fun r => if r.name == name then g r else r)) name
      = (findTask db name).map g := by
  induction db with
  | nil => rfl
  | cons r rs ih =>
    by_cases h : (r.name == name) = true
    · simp [findTask, List.find?, h, hg r h]
    · simp only [Bool.not_eq_true] at h
      simp [findTask, List.find?, h] at ih ⊢
      exact ih

theorem othersOf_map_if (name : String) (g : TaskRow → TaskRow)
    (hg : ∀ r : TaskRow, (r.name == name) = true → ((g r).name == name) = true)
    (db : TaskDB) :
    othersOf name (db.map (fun r => if r.name == name then g r else r))
      = othersOf name db := by
  induction db with
  | nil => rfl
  | cons r rs ih =>
    by_cases h : (r.name == name) = true
    · simp [othersOf, List.filter, h, hg r h, bne] at ih ⊢
      exact ih
    · simp only [Bool.not_eq_true] at h
      simp [othersOf, List.filter, h, bne] at ih ⊢
      exact ih

theorem findTask_create_self (name : String) (now : Int) (db : TaskDB) :
    findTask (create_task_entry name now db) name
      = some ⟨name, now, now, none,
          if db.any (fun r => r.name == name) then SqlVal.int 0
          else SqlVal.null⟩ := by
  induction db with
  | nil => simp [create_task_entry, findTask, List.find?]
  | cons r rs ih =>
    by_cases h : (r.name == name) = true
    · have h' : r.name = name := by simpa using h
      simp [create_task_entry, findTask, List.find?, h, h']
    · simp only [Bool.not_eq_true] at h
      simp only [create_task_entry, List.any_cons, h, Bool.false_or] at ih ⊢
      by_cases ha : rs.any (fun r => r.name == name) = true
      · simp only [ha, if_true] at ih ⊢
        simpa [findTask, List.find?, h] using ih
      · simp only [Bool.not_eq_true] at ha
        simp only [ha, if_false, Bool.false_eq_true] at ih ⊢
        simpa [findTask, List.find?, h] using ih

theorem othersOf_create (name : String) (now : Int) (db : TaskDB) :
    othersOf name (create_task_entry name now db) = othersOf name db := by
  unfold create_task_entry
  by_cases ha : db.any (fun r => r.name == name) = true
  · simp only [ha, if_true]
    exact othersOf_map_if name _ (fun r _ => by simp) db
  · simp only [Bool.not_eq_true] at ha
    simp [ha, othersOf, List.filter_append, bne]

theorem length_create (name : String) (now : Int) (db : TaskDB) :
    (create_task_entry name now db).length
      = if db.any (fun r => r.name == name) then db.length
        else db.length + 1 := by
  unfold create_task_entry
  by_cases ha : db.any (fun r => r.name == name) = true
  · simp [ha]
  · simp only [Bool.not_eq_true] at ha
    simp [ha]

theorem check_set_completed_raw (name : String) (v : SqlVal)
    (hv : v ≠ SqlVal.int 1) (db : TaskDB) :
    check_task_completion name (set_completed_raw name v db) = false := by
  unfold check_task_completion set_completed_raw
  rw [findTask_map_if name (fun r => { r with completed := v }) (fun r h => h)]
  cases findTask db name with
  | none => rfl
  | some r => simpa using hv

/-! ### Claims about the ledger -/

/-- Claim C1 (amended): re-registering an existing task name overwrites the
row with fresh `launch`/`start` equal to now and NULL `end`, sets
`completed` to 0 — not NULL, per `test_create_task_entry`
(test_db.py:195) — and `check_task_completion` returns false immediately
after the re-registration, for every task previously in any state. -/
theorem claim_C1 (db : TaskDB) (name : String) (now : Int)
    (h : db.any (fun r => r.name == name) = true) :
    findTask (create_task_entry name now db) name
      = some ⟨name, now, now, none, SqlVal.int 0⟩
    ∧ check_task_completion name (create_task_entry name now db) = false := by
  have hf := findTask_create_self name now db
  rw [h] at hf
  rw [if_pos rfl] at hf
  refine ⟨hf, ?_⟩
  unfold check_task_completion
  rw [hf]
  rfl

/-- Witness for C1: a task registered at time 0, marked completed at time
5, then re-registered at time 9; the row is reset and no longer counts as
completed. -/
theorem claim_C1_witness :
    findTask (create_task_entry "dummy_task_1" 9
        (mark_task_completed "dummy_task_1" 5
          (create_task_entry "dummy_task_1" 0 []))) "dummy_task_1"
      = some ⟨"dummy_task_1", 9, 9, none, SqlVal.int 0⟩
    ∧ check_task_completion "dummy_task_1"
        (create_task_entry "dummy_task_1" 9
          (mark_task_completed "dummy_task_1" 5
            (create_task_entry "dummy_task_1" 0 []))) = false :=
  claim_C1 _ "dummy_task_1" 9 (by decide)

/-- Counterexample to C1 as stated: immediately after re-registering a
completed task, the stored `completed` value is the integer 0, which is
not the NULL ("cleared") value the claim demands. -/
theorem claim_C1_cex :
    (findTask (create_task_entry "dummy_task_1" 9
        (mark_task_completed "dummy_task_1" 5
          (create_task_entry "dummy_task_1" 0 []))) "dummy_task_1").map
        TaskRow.completed = some (SqlVal.int 0)
    ∧ SqlVal.int 0 ≠ SqlVal.null := by
  exact ⟨rfl, by decide⟩

/-- Claim C3: `check_task_completion` returns true iff the stored
`completed` value for the task equals the integer 1; for a missing row or
any other stored value — NULL, 0, or corrupted text such as 'foo' (planted
through the raw SQL update of `test_check_task_completion`) — it returns
false, and being a total function it never raises. -/
theorem claim_C3 (db : TaskDB) (name : String) :
    (check_task_completion name db = true
      ↔ (findTask db name).map TaskRow.completed = some (SqlVal.int 1))
    ∧ check_task_completion name
        (set_completed_raw name (SqlVal.text "foo") db) = false
    ∧ check_task_completion name
        (set_completed_raw name SqlVal.null db) = false
    ∧ check_task_completion name
        (set_completed_raw name (SqlVal.int 0) db) = false := by
  refine ⟨?_, check_set_completed_raw name _ (by decide) db,
    check_set_completed_raw name _ (by decide) db,
    check_set_completed_raw name _ (by decide) db⟩
  unfold check_task_completion
  cases findTask db name with
  | none => simp
  | some r => simp

/-- Claim C4 (amended): `mark_task_incomplete` sets the row's `completed`
field to 0 and leaves `name`, `launch`, `start` and `end` unchanged; in
particular a previously recorded `end` timestamp remains in the row, per
`test_mark_task_incomplete` (test_db.py:313-317), instead of being
cleared. -/
theorem claim_C4 (db : TaskDB) (name : String) :
    findTask (mark_task_incomplete name db) name
      = (findTask db name).map
          (fun r => ⟨r.name, r.launch, r.start, r.endTime, SqlVal.int 0⟩)
    ∧ ∀ (db0 : TaskDB) (t now : Int),
        findTask (mark_task_incomplete name
            (mark_task_completed name now (create_task_entry name t db0)))
            name
          = some ⟨name, t, t, some now, SqlVal.int 0⟩ := by
  constructor
  · exact findTask_map_if name
      (fun r => { r with completed := SqlVal.int 0 }) (fun r h => h) db
  · intro db0 t now
    unfold mark_task_incomplete mark_task_completed
    rw [findTask_map_if name
        (fun r => { r with completed := SqlVal.int 0 }) (fun r h => h),
      findTask_map_if name
        (fun r => { r with endTime := some now, completed := SqlVal.int 1 })
        (fun r h => h),
      findTask_create_self]
    rfl

/-- Counterexample to C4 as stated: a task completed at time 3 and then
marked incomplete still carries `end = 3`; the claim demands `end = NULL`
after `mark_task_incomplete`. -/
theorem claim_C4_cex :
    findTask (mark_task_incomplete "dummy_task_2"
        (mark_task_completed "dummy_task_2" 3
          (create_task_entry "dummy_task_2" 0 []))) "dummy_task_2"
      = some ⟨"dummy_task_2", 0, 0, some 3, SqlVal.int 0⟩
    ∧ (some (3 : Int) ≠ (none : Option Int)) := by
  exact ⟨rfl, by decide⟩

/-- Claim C5: for every task with a recorded `end`, `get_task_runtime`
returns `end - start` in whole seconds; for a locally completed task
(`mark_task_completed` after `create_task_entry`) this is the completion
time minus the registration time, and for a remotely completed task
(`mark_drmaa_task_completed`) it is exactly the supplied end time minus
the supplied start time. -/
theorem claim_C5 :
    (∀ (db : TaskDB) (name : String) (r : TaskRow) (e : Int),
        findTask db name = some r → r.endTime = some e →
        get_task_runtime name db = some (e - r.start))
    ∧ (∀ (db : TaskDB) (name : String) (t now : Int),
        get_task_runtime name
            (mark_task_completed name now (create_task_entry name t db))
          = some (now - t))
    ∧ (∀ (db : TaskDB) (name : String) (t l s e : Int),
        get_task_runtime name
            (mark_drmaa_task_completed name l s e (create_task_entry name t db))
          = some (e - s)) := by
  refine ⟨?_, ?_, ?_⟩
  · intro db name r e hr he
    unfold get_task_runtime
    rw [hr]
    simp [he]
  · intro db name t now
    unfold get_task_runtime mark_task_completed
    rw [findTask_map_if name
        (fun r => { r with endTime := some now, completed := SqlVal.int 1 })
        (fun r h => h),
      findTask_create_self]
    rfl
  · intro db name t l s e
    unfold get_task_runtime mark_drmaa_task_completed
    rw [findTask_map_if name
        (fun r => (⟨r.name, l, s, some e, SqlVal.int 1⟩ : TaskRow))
        (fun r h => h),
      findTask_create_self]
    rfl

/-- Witness for C5: a task registered at time 0 and completed at time 5
has runtime 5; a task remotely completed with start 2 and end 5 has
runtime 3. -/
theorem claim_C5_witness :
    get_task_runtime "dummy_task_1"
        (mark_task_completed "dummy_task_1" 5
          (create_task_entry "dummy_task_1" 0 [])) = some 5
    ∧ get_task_runtime "dummy_task_2"
        (mark_drmaa_task_completed "dummy_task_2" 1 2 5
          (create_task_entry "dummy_task_2" 0 [])) = some 3 := by
  have h1 := claim_C5.1
    (mark_task_completed "dummy_task_1" 5 (create_task_entry "dummy_task_1" 0 []))
    "dummy_task_1" ⟨"dummy_task_1", 0, 0, some 5, SqlVal.int 1⟩ 5 (by decide) rfl
  have h2 := claim_C5.2.2
    ([] : TaskDB) "dummy_task_2" 0 1 2 5
  constructor
  · simpa using h1
  · simpa using h2

/-- Claim C10 (amended): every ledger mutation that targets one task name
leaves every row whose name differs from the target exactly unchanged
(same name, launch, start, end and completed, in the same order), for
every prior ledger state; the three mark operations additionally preserve
the row count exactly, while `create_task_entry` appends one new row
exactly when the target name is absent. -/
theorem claim_C10 (db : TaskDB) (name : String) (now l s e : Int) :
    othersOf name (create_task_entry name now db) = othersOf name db
    ∧ othersOf name (mark_task_completed name now db) = othersOf name db
    ∧ othersOf name (mark_task_incomplete name db) = othersOf name db
    ∧ othersOf name (mark_drmaa_task_completed name l s e db)
        = othersOf name db
    ∧ (mark_task_completed name now db).length = db.length
    ∧ (mark_task_incomplete name db).length = db.length
    ∧ (mark_drmaa_task_completed name l s e db).length = db.length
    ∧ (create_task_entry name now db).length
        = (if db.any (fun r => r.name == name) then db.length
           else db.length + 1) := by
  refine ⟨othersOf_create name now db, ?_, ?_, ?_, ?_, ?_, ?_,
    length_create name now db⟩
  · exact othersOf_map_if name
      (fun r => { r with endTime := some now, completed := SqlVal.int 1 })
      (fun r h => h) db
  · exact othersOf_map_if name
      (fun r => { r with completed := SqlVal.int 0 }) (fun r h => h) db
  · exact othersOf_map_if name
      (fun r => (⟨r.name, l, s, some e, SqlVal.int 1⟩ : TaskRow))
      (fun r h => h) db
  · simp [mark_task_completed]
  · simp [mark_task_incomplete]
  · simp [mark_drmaa_task_completed]

/-- Counterexample to C10 as stated: `create_task_entry` on a ledger that
does not yet hold the target name adds a row (here: from zero rows to one
row), so the mutation does not keep the row set fixed for every prior
ledger state. -/
theorem claim_C10_cex :
    create_task_entry "dummy_task_1" 0 []
      = [⟨"dummy_task_1", 0, 0, none, SqlVal.null⟩]
    ∧ ([] : TaskDB).length = 0
    ∧ (create_task_entry "dummy_task_1" 0 []).length = 1 := by
  exact ⟨rfl, rfl, rfl⟩

/-! ### String ordering lemmas -/

theorem charListLe_total :
    ∀ as bs, charListLe as bs = false → charListLe bs as = true := by
  intro as
  induction as with
  | nil => intro bs h; simp [charListLe] at h
  | cons a as ih =>
    intro bs h
    cases bs with
    | nil => simp [charListLe]
    | cons b bs =>
      simp only [charListLe] at h ⊢
      by_cases hab : a < b
      · simp [hab] at h
      · by_cases hba : b < a
        · simp [hba]
        · rw [if_neg hab, if_neg hba] at h
          rw [if_neg hba, if_neg hab]
          exact ih bs h

theorem charListLe_trans : ∀ as bs cs, charListLe as bs = true →
    charListLe bs cs = true → charListLe as cs = true := by
  intro as
  induction as with
  | nil => intro bs cs h1 h2; simp [charListLe]
  | cons a as ih =>
    intro bs cs h1 h2
    cases bs with
    | nil => simp [charListLe] at h1
    | cons b bs =>
      cases cs with
      | nil => simp [charListLe] at h2
      | cons c cs =>
        simp only [charListLe] at h1 h2 ⊢
        by_cases hab : a < b
        · by_cases hbc : b < c
          · simp [lt_trans hab hbc]
          · by_cases hcb : c < b
            · simp [if_neg hbc, if_pos hcb] at h2
            · have hbce : b = c := le_antisymm (not_lt.mp hcb) (not_lt.mp hbc)
              subst hbce
              simp [hab]
        · by_cases hba : b < a
          · simp [if_neg hab, if_pos hba] at h1
          · have habe : a = b := le_antisymm (not_lt.mp hba) (not_lt.mp hab)
            subst habe
            simp only [if_neg hab, if_neg hba] at h1
            by_cases hac : a < c
            · simp [hac]
            · by_cases hca : c < a
              · simp [if_neg hac, if_pos hca] at h2
              · simp only [if_neg hac, if_neg hca] at h2 ⊢
                exact ih bs cs h1 h2

theorem strLeB_total : ∀ a b, strLeB a b = false → strLeB b a = true :=
  fun a b h => charListLe_total a.data b.data h

theorem strLeB_trans :
    ∀ a b c, strLeB a b = true → strLeB b c = true → strLeB a c = true :=
  fun a b c h1 h2 => charListLe_trans a.data b.data c.data h1 h2

/-! ### Claim C6: chromosome-length validation -/

/-- Claim C6 (amended): loading a chromosome-length cache file fails with
the missing-data `ProgramError` exactly when a required autosome "1".."22"
is absent — "X" is not in the required set on load — and the message lists
the absent labels sorted ascending as strings and comma-joined; omitting
"9" and "12" produces exactly "missing chromosomes: 12, 9". -/
theorem claim_C6 :
    (∀ file : List (String × Int), missingChromosomes file = [] →
      get_chromosome_length (some file) = .ok file)
    ∧ (∀ (file : List (String × Int)) (m : String) (ms : List String),
        missingChromosomes file = m :: ms →
        get_chromosome_length (some file)
          = .error ("missing chromosomes: "
              ++ String.intercalate ", " (sortBy strLeB (m :: ms))))
    ∧ (∀ l : List String,
        (sortBy strLeB l).Pairwise (fun a b => strLeB a b = true)
        ∧ List.Perm (sortBy strLeB l) l)
    ∧ missingChromosomes (builtinChromosomeLengths.filter
          (fun p => p.1 != "X" && p.1 != "9" && p.1 != "12")) = ["9", "12"]
    ∧ get_chromosome_length (some (builtinChromosomeLengths.filter
          (fun p => p.1 != "X" && p.1 != "9" && p.1 != "12")))
        = .error "missing chromosomes: 12, 9" := by
  refine ⟨?_, ?_, ?_, rfl, rfl⟩
  · intro file h
    simp only [get_chromosome_length, h]
  · intro file m ms h
    simp only [get_chromosome_length, h]
  · intro l
    exact ⟨pairwise_sortBy strLeB strLeB_total strLeB_trans l,
      perm_sortBy strLeB l⟩

/-- Witness for C6: the full builtin table loads successfully, and the
table with "9" and "12" removed (and no "X") fails with the sorted,
comma-joined message. -/
theorem claim_C6_witness :
    get_chromosome_length (some builtinChromosomeLengths)
      = .ok builtinChromosomeLengths
    ∧ get_chromosome_length (some (builtinChromosomeLengths.filter
          (fun p => p.1 != "X" && p.1 != "9" && p.1 != "12")))
        = .error ("missing chromosomes: "
            ++ String.intercalate ", " (sortBy strLeB ["9", "12"])) := by
  constructor
  · exact claim_C6.1 builtinChromosomeLengths rfl
  · exact claim_C6.2.1 _ "9" ["12"] claim_C6.2.2.2.1

/-- Counterexample to C6 as stated: a cache file holding exactly the 22
autosomes and no "X" is accepted without error, although the claim's
required set includes "X" and demands a MissingDataError naming it. -/
theorem claim_C6_cex :
    get_chromosome_length
        (some (builtinChromosomeLengths.filter (fun p => p.1 != "X")))
      = .ok (builtinChromosomeLengths.filter (fun p => p.1 != "X"))
    ∧ (builtinChromosomeLengths.filter (fun p => p.1 != "X")).any
        (fun p => p.1 == "X") = false := ⟨rfl, rfl⟩

/-! ### Claim C7: chromosome-encoding resolution -/

theorem lookup_encPairs_notin (ref : List String) (key : String)
    (l : List Nat) (hk : key ∉ l.map Nat.repr) :
    (l.filterMap
        (fun m => (encValue ref m).map (fun c => (Nat.repr m, c)))).lookup key
      = none := by
  induction l with
  | nil => rfl
  | cons m ms ih =>
    simp only [List.map_cons, List.mem_cons] at hk
    push_neg at hk
    obtain ⟨h1, h2⟩ := hk
    rw [List.filterMap_cons]
    cases hv : encValue ref m with
    | none => exact ih h2
    | some c =>
      have hbe : (key == Nat.repr m) = false := by
        simp only [beq_eq_false_iff_ne, ne_eq]
        exact h1
      simp only [Option.map_some']
      rw [List.lookup_cons, hbe]
      exact ih h2

theorem lookup_encPairs (ref : List String) (l : List Nat) (n : Nat)
    (hn : n ∈ l) (hnd : (l.map Nat.repr).Nodup) :
    (l.filterMap
        (fun m => (encValue ref m).map (fun c => (Nat.repr m, c)))).lookup
        (Nat.repr n)
      = encValue ref n := by
  induction l with
  | nil => cases hn
  | cons m ms ih =>
    rw [List.map_cons, List.nodup_cons] at hnd
    obtain ⟨hm, hnd2⟩ := hnd
    rw [List.mem_cons] at hn
    rw [List.filterMap_cons]
    rcases hn with rfl | hn
    · cases hv : encValue ref n with
      | none => exact lookup_encPairs_notin ref _ ms hm
      | some c =>
        simp only [Option.map_some']
        rw [List.lookup_cons]
        simp
    · have hrne : Nat.repr n ≠ Nat.repr m := by
        intro he
        exact hm (he ▸ List.mem_map_of_mem Nat.repr hn)
      cases hv : encValue ref m with
      | none => exact ih hn hnd2
      | some c =>
        have hbe : (Nat.repr n == Nat.repr m) = false := by
          simp only [beq_eq_false_iff_ne, ne_eq]
          exact hrne
        simp only [Option.map_some']
        rw [List.lookup_cons, hbe]
        exact ih hn hnd2

/-- Claim C7 (amended): `get_chrom_encoding` iterates over the numeric
chromosome labels 1..24 and 26 (not over "1".."22","X","Y": the X and Y
results are keyed "23" and "24", and the mitochondrial 26 is also
resolved); each label is mapped, under its numeric key, to the first
candidate encoding present in the reference index (bare number, then
chr-prefixed number, and for 23/24 also the letter forms); a label with no
candidate present is omitted from the mapping and yields exactly the
non-fatal warning naming its number, and the function is total, never
raising. -/
theorem claim_C7 (ref : List String) (n : Nat)
    (hn : n ∈ encodingChromosomes) :
    ((get_chrom_encoding ref).1.lookup (Nat.repr n) = encValue ref n)
    ∧ (encValue ref n = none →
        encWarning n ∈ (get_chrom_encoding ref).2)
    ∧ (∀ c, encValue ref n = some c →
        encWarning n ∉ (get_chrom_encoding ref).2) := by
  have hnd : (encodingChromosomes.map Nat.repr).Nodup := by decide
  have hwnd : (encodingChromosomes.map encWarning).Nodup := by decide
  refine ⟨lookup_encPairs ref encodingChromosomes n hn hnd, ?_, ?_⟩
  · intro h
    simp only [get_chrom_encoding, List.mem_filterMap]
    exact ⟨n, hn, by rw [h]⟩
  · intro c hc hmem
    simp only [get_chrom_encoding, List.mem_filterMap] at hmem
    obtain ⟨m, hm, hv⟩ := hmem
    cases hvm : encValue ref m with
    | some d => rw [hvm] at hv; cases hv
    | none =>
      rw [hvm] at hv
      simp only [Option.some_inj] at hv
      have hmn : m = n := List.inj_on_of_nodup_map hwnd hm hn hv
      rw [hmn, hc] at hvm
      cases hvm

/-- Witness for C7: against a reference index holding only the sequence
label "X", chromosome 23 resolves to "X" under the key "23" and gets no
warning, while chromosome 26 is absent and gets its warning. -/
theorem claim_C7_witness :
    (get_chrom_encoding ["X"]).1.lookup "23" = some "X"
    ∧ encWarning 26 ∈ (get_chrom_encoding ["X"]).2
    ∧ encWarning 23 ∉ (get_chrom_encoding ["X"]).2 := by
  have h23 := claim_C7 ["X"] 23 (by decide)
  have h26 := claim_C7 ["X"] 26 (by decide)
  exact ⟨h23.1, h26.2.1 rfl, h23.2.2 "X" rfl⟩

/-- Counterexample to C7 as stated: against a reference holding only "X",
the claim requires the required label "X" to resolve to itself (a mapping
entry under the key "X") and allows warnings only for the required labels
1..22, X, Y — yet the function returns the entry under the numeric key
"23", no entry at all under "X", and emits a warning naming 26, which is
not in the claim's required set. -/
theorem claim_C7_cex :
    (get_chrom_encoding ["X"]).1 = [("23", "X")]
    ∧ (get_chrom_encoding ["X"]).1.lookup "X" = none
    ∧ "26: chromosome not in reference" ∈ (get_chrom_encoding ["X"]).2 := by
  refine ⟨rfl, rfl, ?_⟩
  have : (get_chrom_encoding ["X"]).2.contains "26: chromosome not in reference" = true := rfl
  simpa using this

/-! ### Claim C2: strand-flip detection -/

/-- Claim C2 (amended): `is_reversed` returns false — without raising —
whenever either allele is not a single A/C/G/T letter (case-insensitive),
the chromosome label is absent from the encoding, or the 1-based position
falls outside the resolved reference sequence; otherwise it returns true
iff the upper-cased reference base at the position equals neither supplied
allele while its complement (A↔T, C↔G) equals at least one of them — not
"iff the complement equals alleleA", which both directions of
`test_is_reversed` refute. -/
theorem claim_C2 (chrom : String) (pos : Int) (a1 a2 : String)
    (reference : RefGenome) (encoding : List (String × String)) :
    ((alleleChar a1 = none ∨ alleleChar a2 = none) →
      is_reversed chrom pos a1 a2 reference encoding = false)
    ∧ (encoding.lookup chrom = none →
      is_reversed chrom pos a1 a2 reference encoding = false)
    ∧ (∀ label seq, encoding.lookup chrom = some label →
        reference.lookup label = some seq →
        (pos < 1 ∨ (seq.length : Int) < pos) →
        is_reversed chrom pos a1 a2 reference encoding = false)
    ∧ (∀ c1 c2 label seq b,
        alleleChar a1 = some c1 → alleleChar a2 = some c2 →
        encoding.lookup chrom = some label →
        reference.lookup label = some seq →
        1 ≤ pos → seq.get? (pos.toNat - 1) = some b →
        (is_reversed chrom pos a1 a2 reference encoding = true
          ↔ (b.toUpper ≠ c1 ∧ b.toUpper ≠ c2
             ∧ (complementBase b.toUpper = some c1
                ∨ complementBase b.toUpper = some c2)))) := by
  refine ⟨?_, ?_, ?_, ?_⟩
  · intro h
    unfold is_reversed
    cases h1 : alleleChar a1 with
    | none => cases h2 : alleleChar a2 <;> rfl
    | some c1 =>
      cases h2 : alleleChar a2 with
      | none => rfl
      | some c2 =>
        exfalso
        rcases h with h | h
        · rw [h1] at h; cases h
        · rw [h2] at h; cases h
  · intro h
    unfold is_reversed
    cases h1 : alleleChar a1 with
    | none => cases h2 : alleleChar a2 <;> rfl
    | some c1 =>
      cases h2 : alleleChar a2 with
      | none => rfl
      | some c2 => rw [h]
  · intro label seq hlab href hpos
    unfold is_reversed
    cases h1 : alleleChar a1 with
    | none => cases h2 : alleleChar a2 <;> rfl
    | some c1 =>
      cases h2 : alleleChar a2 with
      | none => rfl
      | some c2 =>
        simp only [hlab, href]
        rcases hpos with hp | hp
        · rw [if_pos hp]
        · have hp1 : ¬ pos < 1 := by omega
          have hg : seq.get? (pos.toNat - 1) = none :=
            List.get?_eq_none.mpr (by omega)
          simp only [if_neg hp1, hg]
  · intro c1 c2 label seq b h1 h2 hlab href hpos hb
    unfold is_reversed
    simp only [h1, h2, hlab, href, if_neg (not_lt.mpr hpos), hb]
    by_cases hr : b.toUpper = c1 ∨ b.toUpper = c2
    · simp only [if_pos hr, Bool.false_eq_true, false_iff]
      rintro ⟨hn1, hn2, -⟩
      rcases hr with hr | hr
      · exact hn1 hr
      · exact hn2 hr
    · rw [if_neg hr]
      push_neg at hr
      obtain ⟨hn1, hn2⟩ := hr
      cases hc : complementBase b.toUpper with
      | none =>
        simp only [Bool.false_eq_true, false_iff]
        rintro ⟨-, -, hcc⟩
        rcases hcc with hcc | hcc <;> cases hcc
      | some rc =>
        simp only [decide_eq_true_eq]
        constructor
        · intro hor
          refine ⟨hn1, hn2, ?_⟩
          rcases hor with hh | hh
          · exact Or.inl (by rw [hh])
          · exact Or.inr (by rw [hh])
        · rintro ⟨-, -, hcc⟩
          rcases hcc with hcc | hcc
          · exact Or.inl (Option.some_inj.mp hcc)
          · exact Or.inr (Option.some_inj.mp hcc)

/-- Witness for C2, on the reference and encoding of `test_is_reversed`:
an invalid allele, an unresolved chromosome, and an out-of-range position
each give false; a valid call whose reference base complement matches an
allele gives true. -/
theorem claim_C2_witness :
    is_reversed "1" 1 "I" "D" refFixture encFixture = false
    ∧ is_reversed "23" 1 "A" "C" refFixture encFixture = false
    ∧ is_reversed "1" 100 "A" "C" refFixture encFixture = false
    ∧ is_reversed "1" 1 "T" "G" refFixture encFixture = true := by
  refine ⟨?_, ?_, ?_, ?_⟩
  · exact (claim_C2 "1" 1 "I" "D" refFixture encFixture).1
      (Or.inl (by decide))
  · exact (claim_C2 "23" 1 "A" "C" refFixture encFixture).2.1 (by decide)
  · exact (claim_C2 "1" 100 "A" "C" refFixture encFixture).2.2.1
      "1" ['A', 'C', 'G', 'T'] (by decide) (by decide) (Or.inr (by decide))
  · exact ((claim_C2 "1" 1 "T" "G" refFixture encFixture).2.2.2
      'T' 'G' "1" ['A', 'C', 'G', 'T'] 'A' (by decide) (by decide)
      (by decide) (by decide) (by decide) (by decide)).mpr (by decide)

/-- Counterexample to C2 as stated, straight from `test_is_reversed`: the
call `is_reversed "2" 2 "t" "g"` returns true although the complement of
the reference base ('C' → 'G') differs from the first allele 'T', and the
call `is_reversed "3" 2 "g" "c"` returns false although the complement of
the reference base ('c' → 'G') equals the first allele "g"
(case-insensitively) — both directions of the claim's "true iff the
complement equals alleleA" fail. -/
theorem claim_C2_cex :
    is_reversed "2" 2 "t" "g" refFixture encFixture = true
    ∧ alleleChar "t" = some 'T'
    ∧ complementBase 'C' = some 'G'
    ∧ (some 'G' : Option Char) ≠ some 'T'
    ∧ is_reversed "3" 2 "g" "c" refFixture encFixture = false
    ∧ alleleChar "g" = some 'G'
    ∧ complementBase 'c'.toUpper = some 'G' := by
  refine ⟨rfl, rfl, rfl, by decide, rfl, rfl, rfl⟩

/-! ### Claim C9: segment-file ordering -/

theorem takeWhile_digits_append (ds suffix : List Char)
    (hds : ∀ c ∈ ds, isDigitChar c = true)
    (hsuf : ∀ c, suffix.head? = some c → isDigitChar c = false) :
    (ds ++ suffix).takeWhile isDigitChar = ds
    ∧ (ds ++ suffix).dropWhile isDigitChar = suffix := by
  induction ds with
  | nil =>
    cases suffix with
    | nil => exact ⟨rfl, rfl⟩
    | cons c cs =>
      have hc := hsuf c rfl
      constructor
      · simp [List.takeWhile_cons, hc]
      · simp [List.dropWhile_cons, hc]
  | cons d ds ih =>
    have hd := hds d (List.mem_cons_self d ds)
    have ih2 := ih (fun c hc => hds c (List.mem_cons_of_mem d hc))
    constructor
    · simp [List.takeWhile_cons, hd, ih2.1]
    · simp [List.dropWhile_cons, hd, ih2.2]

theorem parseChrAt_pattern (d1 d2 d3 suf : List Char)
    (h1 : d1 ≠ []) (hd1 : ∀ c ∈ d1, isDigitChar c = true)
    (h2 : d2 ≠ []) (hd2 : ∀ c ∈ d2, isDigitChar c = true)
    (h3 : d3 ≠ []) (hd3 : ∀ c ∈ d3, isDigitChar c = true)
    (hsuf : ∀ c, suf.head? = some c → isDigitChar c = false) :
    parseChrAt ('c' :: 'h' :: 'r' :: (d1 ++ '.' :: (d2 ++ '_' :: (d3 ++ suf))))
      = some (digitsVal d1, digitsVal d2, digitsVal d3) := by
  have t1 := takeWhile_digits_append d1 ('.' :: (d2 ++ '_' :: (d3 ++ suf)))
    hd1 (fun c hc => by
      rw [List.head?_cons, Option.some_inj] at hc
      rw [← hc]; decide)
  have t2 := takeWhile_digits_append d2 ('_' :: (d3 ++ suf))
    hd2 (fun c hc => by
      rw [List.head?_cons, Option.some_inj] at hc
      rw [← hc]; decide)
  have t3 := takeWhile_digits_append d3 suf hd3 hsuf
  have e1 : d1.isEmpty = false := by
    cases d1 with
    | nil => exact absurd rfl h1
    | cons x xs => rfl
  have e2 : d2.isEmpty = false := by
    cases d2 with
    | nil => exact absurd rfl h2
    | cons x xs => rfl
  have e3 : d3.isEmpty = false := by
    cases d3 with
    | nil => exact absurd rfl h3
    | cons x xs => rfl
  simp only [parseChrAt, t1.1, t1.2, t2.1, t2.2, t3.1, e1, e2, e3,
    Bool.false_eq_true, if_false]

theorem scanForChr_append (pre l : List Char)
    (hpre : ∀ i, i < pre.length → parseChrAt ((pre ++ l).drop i) = none) :
    scanForChr (pre ++ l) = scanForChr l := by
  induction pre with
  | nil => rfl
  | cons p ps ih =>
    have h0 := hpre 0 (Nat.succ_pos _)
    rw [List.drop_zero] at h0
    have hrest : ∀ i, i < ps.length → parseChrAt ((ps ++ l).drop i) = none := by
      intro i hi
      have hh := hpre (i + 1) (Nat.succ_lt_succ hi)
      rw [List.cons_append, List.drop_succ_cons] at hh
      exact hh
    rw [List.cons_append] at h0 ⊢
    rw [scanForChr, h0]
    exact ih hrest

theorem tripleLe_total : ∀ a b, tripleLe a b = false → tripleLe b a = true := by
  intro a b h
  simp only [tripleLe, decide_eq_false_iff_not] at h
  simp only [tripleLe, decide_eq_true_eq]
  omega

theorem tripleLe_trans : ∀ a b c, tripleLe a b = true → tripleLe b c = true →
    tripleLe a c = true := by
  intro a b c h1 h2
  simp only [tripleLe, decide_eq_true_eq] at h1 h2 ⊢
  omega

theorem fileKeyLe_total : ∀ a b, fileKeyLe a b = false → fileKeyLe b a = true :=
  fun a b h => tripleLe_total _ _ h

theorem fileKeyLe_trans : ∀ a b c, fileKeyLe a b = true →
    fileKeyLe b c = true → fileKeyLe a c = true :=
  fun a b c h1 h2 => tripleLe_trans _ _ _ h1 h2

/-- Claim C9: for every filename matching the segment pattern
`...chr<N>.<start>_<end>...` (three nonempty digit runs, no digit
directly after the end group, the pattern's leftmost match), `file_sorter`
extracts the integer triple (chromosome, start, end); sorting any list of
filenames by it is ascending in the lexicographic (chromosome, start,
end) order and permutes the input; and on the filenames of
`test_file_sorter` — whose numbers carry no zero-padding — this genome
order differs from lexical string order. -/
theorem claim_C9 :
    (∀ (pre d1 d2 d3 suf : List Char),
        d1 ≠ [] → (∀ c ∈ d1, isDigitChar c = true) →
        d2 ≠ [] → (∀ c ∈ d2, isDigitChar c = true) →
        d3 ≠ [] → (∀ c ∈ d3, isDigitChar c = true) →
        (∀ c, suf.head? = some c → isDigitChar c = false) →
        (∀ i, i < pre.length →
          parseChrAt ((pre ++ 'c' :: 'h' :: 'r'
            :: (d1 ++ '.' :: (d2 ++ '_' :: (d3 ++ suf)))).drop i) = none) →
        file_sorter (String.mk (pre ++ 'c' :: 'h' :: 'r'
            :: (d1 ++ '.' :: (d2 ++ '_' :: (d3 ++ suf)))))
          = some (digitsVal d1, digitsVal d2, digitsVal d3))
    ∧ (∀ l : List String,
        (sortSegmentFiles l).Pairwise (fun a b => fileKeyLe a b = true)
        ∧ List.Perm (sortSegmentFiles l) l)
    ∧ segmentTestFiles.map file_sorter
        = [some (1, 1000, 100000), some (2, 10000, 1002300),
           some (1, 1, 100), some (1, 1, 10), some (1, 100000, 2000000)]
    ∧ sortSegmentFiles segmentTestFiles = segmentTestSorted
    ∧ sortBy strLeB segmentTestFiles ≠ segmentTestSorted := by
  refine ⟨?_, ?_, by decide, by decide, by decide⟩
  · intro pre d1 d2 d3 suf h1 hd1 h2 hd2 h3 hd3 hsuf hpre
    show scanForChr (pre ++ 'c' :: 'h' :: 'r'
      :: (d1 ++ '.' :: (d2 ++ '_' :: (d3 ++ suf))))
      = some (digitsVal d1, digitsVal d2, digitsVal d3)
    rw [scanForChr_append pre _ hpre, scanForChr,
      parseChrAt_pattern d1 d2 d3 suf h1 hd1 h2 hd2 h3 hd3 hsuf]
  · intro l
    exact ⟨pairwise_sortBy fileKeyLe fileKeyLe_total fileKeyLe_trans l,
      perm_sortBy fileKeyLe l⟩

/-- Witness for C9: the segment name `/some/path/chr1.1_10.impute2` of
`test_file_sorter`, decomposed as prefix, three digit runs and suffix,
yields the triple (1, 1, 10). -/
theorem claim_C9_witness :
    file_sorter (String.mk ("/some/path/".data ++ 'c' :: 'h' :: 'r'
        :: (['1'] ++ '.' :: (['1'] ++ '_' :: (['1', '0']
            ++ ".impute2".data)))))
      = some (1, 1, 10) :=
  claim_C9.1 "/some/path/".data ['1'] ['1'] ['1', '0'] ".impute2".data
    (by decide) (by decide) (by decide) (by decide) (by decide) (by decide)
    (by decide) (by decide)

/-! ### Claim C8: MAF statistics aggregation -/

theorem findSome?_append_first {α β : Type} (f : α → Option β)
    (l1 l2 : List α) (c : α) (y : β)
    (h1 : ∀ x ∈ l1, f x = none) (hc : f c = some y) :
    (l1 ++ c :: l2).findSome? f = some y := by
  induction l1 with
  | nil => simp [List.findSome?_cons, hc]
  | cons a l ih =>
    rw [List.cons_append, List.findSome?_cons, h1 a (List.mem_cons_self a l)]
    exact ih (fun x hx => h1 x (List.mem_cons_of_mem a hx))

theorem findSome?_eq_none_of {α β : Type} (f : α → Option β) (l : List α)
    (h : ∀ x ∈ l, f x = none) : l.findSome? f = none := by
  induction l with
  | nil => rfl
  | cons a l ih =>
    rw [List.findSome?_cons, h a (List.mem_cons_self a l)]
    exact ih (fun x hx => h x (List.mem_cons_of_mem a hx))

theorem firstMissing_none (dir : String)
    (mafs : Nat → Option (List (String × MafVal)))
    (goods : Nat → Option (List String))
    (h : ∀ c ∈ chromosomeNumbers,
      (mafs c).isSome = true ∧ (goods c).isSome = true) :
    firstMissingMafFile dir mafs goods = none := by
  refine findSome?_eq_none_of _ _ (fun c hc => ?_)
  obtain ⟨hm, hg⟩ := h c hc
  have hm2 : (mafs c).isNone = false := by
    cases hmc : mafs c
    · rw [hmc] at hm; cases hm
    · rfl
  have hg2 : (goods c).isNone = false := by
    cases hgc : goods c
    · rw [hgc] at hg; cases hg
    · rfl
  simp [hm2, hg2]

theorem flatten_map_eq_nil {α β : Type} (l : List α) (f : α → List β)
    (h : ∀ c ∈ l, f c = []) : (l.map f).flatten = [] := by
  induction l with
  | nil => rfl
  | cons a l ih =>
    rw [List.map_cons, List.flatten_cons, h a (List.mem_cons_self a l),
      List.nil_append]
    exact ih (fun x hx => h x (List.mem_cons_of_mem a hx))

theorem filterMap_eq_nil_of {α β : Type} (l : List α) (f : α → Option β)
    (h : ∀ c ∈ l, f c = none) : l.filterMap f = [] := by
  induction l with
  | nil => rfl
  | cons a l ih =>
    rw [List.filterMap_cons, h a (List.mem_cons_self a l)]
    exact ih (fun x hx => h x (List.mem_cons_of_mem a hx))

/-- Claim C8 (amended): `gather_maf_stats` aborts with the invalid-data
error — naming the marker and the offending value rounded to three
decimals — for every numeric MAF of a good site outside [0, 0.5] (not
[0, 1]: the test demands the error for 0.6, and a minor allele frequency
cannot exceed one half); it aborts with the missing-file error naming the
file when a chromosome's MAF file, or failing that its good-sites file,
is absent; and when no good site carries any MAF entry it returns the
all-zero statistics together with exactly the single no-marker warning
instead of failing. -/
theorem claim_C8 :
    (∀ (dir m : String) (v : Int) (gl : List String)
        (mafs : Nat → Option (List (String × MafVal)))
        (goods : Nat → Option (List String)),
        mafs 1 = some [(m, MafVal.num v)] →
        goods 1 = some gl → gl.contains m = true →
        (∀ c ∈ chromosomeNumbers,
          (mafs c).isSome = true ∧ (goods c).isSome = true) →
        (v < 0 ∨ mafHalf < v) →
        gather_maf_stats dir mafs goods
          = Except.error (MafError.invalidData m (roundTo3 v)))
    ∧ (∀ (dir : String) (mafs : Nat → Option (List (String × MafVal)))
        (goods : Nat → Option (List String)) (l1 l2 : List Nat) (c : Nat),
        chromosomeNumbers = l1 ++ c :: l2 →
        (∀ c' ∈ l1, (mafs c').isSome = true ∧ (goods c').isSome = true) →
        mafs c = none →
        gather_maf_stats dir mafs goods
          = Except.error (MafError.missingFile (mafFilename dir c)))
    ∧ (∀ (dir : String) (mafs : Nat → Option (List (String × MafVal)))
        (goods : Nat → Option (List String)) (l1 l2 : List Nat) (c : Nat),
        chromosomeNumbers = l1 ++ c :: l2 →
        (∀ c' ∈ l1, (mafs c').isSome = true ∧ (goods c').isSome = true) →
        (mafs c).isSome = true → goods c = none →
        gather_maf_stats dir mafs goods
          = Except.error (MafError.missingFile (goodSitesFilename dir c)))
    ∧ (∀ (dir : String) (mafs : Nat → Option (List (String × MafVal)))
        (goods : Nat → Option (List String)),
        (∀ c ∈ chromosomeNumbers,
          (mafs c).isSome = true ∧ (goods c).isSome = true) →
        (∀ c ∈ chromosomeNumbers,
          goodMafs ((mafs c).getD []) ((goods c).getD []) = []) →
        gather_maf_stats dir mafs goods
          = Except.ok (zeroMafStats, [noMafWarning])) := by
  refine ⟨?_, ?_, ?_, ?_⟩
  · intro dir m v gl mafs goods hm hg hcont hall hv
    have hch : chromosomeNumbers
        = 1 :: [2, 3, 4, 5, 6, 7, 8, 9, 10, 11, 12, 13, 14, 15, 16, 17, 18,
          19, 20, 21, 22] := rfl
    have hmem : m ∈ gl := by simpa using hcont
    have hrow : goodMafs ((mafs 1).getD []) ((goods 1).getD [])
        = [(m, MafVal.num v)] := by
      rw [hm, hg]
      simp [goodMafs, List.filter, hmem]
    have hfirst : firstInvalidMaf ((chromosomeNumbers.map (fun c =>
        (c, goodMafs ((mafs c).getD []) ((goods c).getD [])))).map
          Prod.snd).flatten = some (m, v) := by
      rw [hch]
      simp only [List.map_cons, List.flatten_cons, hrow, List.cons_append,
        firstInvalidMaf, List.findSome?_cons]
      simp only [if_pos hv]
    unfold gather_maf_stats
    rw [firstMissing_none dir mafs goods hall]
    simp only [hfirst]
  · intro dir mafs goods l1 l2 c hsplit h1 hc
    unfold gather_maf_stats
    have : firstMissingMafFile dir mafs goods = some (mafFilename dir c) := by
      unfold firstMissingMafFile
      rw [hsplit]
      refine findSome?_append_first _ l1 l2 c _ ?_ ?_
      · intro x hx
        obtain ⟨hm, hg⟩ := h1 x hx
        have hm2 : (mafs x).isNone = false := by
          cases hmc : mafs x
          · rw [hmc] at hm; cases hm
          · rfl
        have hg2 : (goods x).isNone = false := by
          cases hgc : goods x
          · rw [hgc] at hg; cases hg
          · rfl
        simp [hm2, hg2]
      · simp [hc]
    rw [this]
  · intro dir mafs goods l1 l2 c hsplit h1 hm hc
    unfold gather_maf_stats
    have : firstMissingMafFile dir mafs goods
        = some (goodSitesFilename dir c) := by
      unfold firstMissingMafFile
      rw [hsplit]
      refine findSome?_append_first _ l1 l2 c _ ?_ ?_
      · intro x hx
        obtain ⟨hmx, hgx⟩ := h1 x hx
        have hm2 : (mafs x).isNone = false := by
          cases hmc : mafs x
          · rw [hmc] at hmx; cases hmx
          · rfl
        have hg2 : (goods x).isNone = false := by
          cases hgc : goods x
          · rw [hgc] at hgx; cases hgx
          · rfl
        simp [hm2, hg2]
      · have hm2 : (mafs c).isNone = false := by
          cases hmc : mafs c
          · rw [hmc] at hm; cases hm
          · rfl
        simp [hm2, hc]
    rw [this]
  · intro dir mafs goods hall hempty
    unfold gather_maf_stats
    rw [firstMissing_none dir mafs goods hall]
    have hflat : (chromosomeNumbers.map (fun c =>
        goodMafs ((mafs c).getD []) ((goods c).getD []))).flatten = [] :=
      flatten_map_eq_nil _ _ (fun c hc => hempty c hc)
    have hwarn : (chromosomeNumbers.map (fun c =>
        (c, goodMafs ((mafs c).getD []) ((goods c).getD [])))).filterMap
          (fun pc => if pc.2.any (fun p => p.2 == MafVal.na)
            then some (nanWarning pc.1) else none) = [] := by
      rw [List.filterMap_map]
      refine filterMap_eq_nil_of _ _ (fun c hc => ?_)
      simp [Function.comp, hempty c hc]
    have hsnd : (chromosomeNumbers.map (fun c =>
        (c, goodMafs ((mafs c).getD []) ((goods c).getD [])))).map Prod.snd
        = chromosomeNumbers.map (fun c =>
            goodMafs ((mafs c).getD []) ((goods c).getD [])) := by
      rw [List.map_map]
      rfl
    simp only [hsnd, hflat, hwarn]
    simp [firstInvalidMaf, numericMafs]

/-- Witness for C8, on the fixtures of `test_gather_maf_stats`: the MAF
-0.01 on a good site aborts with the invalid-data error carrying -0.010;
a missing chromosome-1 MAF file, then a missing chromosome-1 good-sites
file, abort naming those paths; and the all-empty good-sites fixture
returns zeroed statistics with the single warning. -/
theorem claim_C8_witness :
    gather_maf_stats "/out" (invalidMafFixture (-10000000)) invalidGoodFixture
      = Except.error (MafError.invalidData "marker_1" (-10))
    ∧ gather_maf_stats "/out" (fun _ => none) (fun _ => some [])
      = Except.error
          (MafError.missingFile "/out/chr1/final_impute2/chr1.imputed.maf")
    ∧ gather_maf_stats "/out" (fun _ => some []) (fun _ => none)
      = Except.error (MafError.missingFile
          "/out/chr1/final_impute2/chr1.imputed.good_sites")
    ∧ gather_maf_stats "/out" (fun c => some (testMafTables c))
        (fun _ => some [])
      = Except.ok (zeroMafStats, [noMafWarning]) := by
  refine ⟨?_, ?_, ?_, ?_⟩
  · exact claim_C8.1 "/out" "marker_1" (-10000000) ["marker_1"]
      (invalidMafFixture (-10000000)) invalidGoodFixture rfl rfl (by decide)
      (by decide) (by decide)
  · exact claim_C8.2.1 "/out" (fun _ => none) (fun _ => some []) []
      [2, 3, 4, 5, 6, 7, 8, 9, 10, 11, 12, 13, 14, 15, 16, 17, 18, 19, 20,
        21, 22] 1 rfl (by decide) rfl
  · exact claim_C8.2.2.1 "/out" (fun _ => some []) (fun _ => none) []
      [2, 3, 4, 5, 6, 7, 8, 9, 10, 11, 12, 13, 14, 15, 16, 17, 18, 19, 20,
        21, 22] 1 rfl (by decide) rfl rfl
  · exact claim_C8.2.2.2 "/out" (fun c => some (testMafTables c))
      (fun _ => some []) (by decide) (by decide)

/-- Counterexample to C8 as stated: the value 0.6 lies inside [0, 1], so
under the claim it is a valid MAF and must not raise — but the fold
aborts with the invalid-data error for it (the accepted domain is
[0, 0.5]). -/
theorem claim_C8_cex :
    gather_maf_stats "/out" (invalidMafFixture 600000000) invalidGoodFixture
      = Except.error (MafError.invalidData "marker_1" 600)
    ∧ (0 ≤ (600000000 : Int) ∧ (600000000 : Int) ≤ mafOne) :=
  ⟨rfl, by decide⟩

/-- Model validation on the full 44-marker fixture of
`test_gather_maf_stats`: the fold reproduces the test's expected counters
(40 good markers with MAF, 26 at least 0.01, 14 at least 0.05, 26 below
0.05, 14 below 0.01, 12 in [0.01, 0.05), none NA) with no warnings. -/
theorem gather_maf_stats_test_fixture :
    gather_maf_stats "/out" (fun c => some (testMafTables c))
        (fun _ => some testGoodSites)
      = Except.ok (⟨40, 26, 14, 26, 14, 12, 0⟩, []) := rfl

/-- Model validation of the NA scenario of `test_gather_maf_stats`:
rewriting chromosome 1's MAF table to a single good "NA" marker logs
exactly the one per-chromosome NaN warning and still succeeds. -/
theorem gather_maf_stats_nan_fixture :
    gather_maf_stats "/out"
        (fun c => if c = 1 then some [("marker_1", MafVal.na)]
          else some (testMafTables c))
        (fun c => if c = 1 then some ["marker_1"] else some testGoodSites)
      = Except.ok (⟨38, 25, 13, 25, 13, 12, 1⟩, [nanWarning 1]) := rfl

end Gwip
